import Mathlib

/-!
Verification of the natural-language command parser of the shopkeeper
ledger application (module with `parseEnhanced`, `parseSentence`,
`parseOrderCommand`, credit parsing, and the lexical helpers).

The JavaScript source is embedded shallowly:
  * JS regular expressions are modelled by a small backtracking matcher
    (`Rgx`, `mrun`) with JS semantics: leftmost match, ordered
    alternation, greedy and lazy quantifiers, anchors, word boundaries,
    negative lookahead, case-insensitive flag, capture groups.
  * JS numbers are modelled by rationals; the numeric strings the code
    feeds to `parseFloat` are plain decimals, parsed exactly.
  * The async price-lookup collaborator `lookupPrice` is a parameter of
    type `PriceLookup`; a thrown/rejected promise is `Except.error ()`.
  * `transaction_date` (wall-clock `new Date()`) is outside the model
    and omitted from entries; no claim mentions it.
-/

/-! ## A JS-style regular-expression engine -/

/-- Regular expression syntax, mirroring the constructs used by the
regex literals of the source module. -/
inductive Rgx where
  | eps : Rgx
  | ch : Char → Rgx
  | cls : (Char → Bool) → Rgx
  | seq : Rgx → Rgx → Rgx
  | alt : Rgx → Rgx → Rgx
  | star : Bool → Rgx → Rgx
  | group : Nat → Rgx → Rgx
  | bos : Rgx
  | eos : Rgx
  | wb : Rgx
  | nla : Rgx → Rgx

/-- ASCII lower-casing of a character (kernel-reducible alias). -/
def Char.lowerAscii (c : Char) : Char := c.toLower

/-- ASCII upper-casing of a character (kernel-reducible alias). -/
def Char.upperAscii (c : Char) : Char := c.toUpper

/-- JS `\w`: ASCII letters, digits and underscore. -/
def jsWordChar (c : Char) : Bool := c.isAlpha || c.isDigit || c = '_'

/-- Match state: the character just before the current position (for
`^` and `\b`) and the remaining input. -/
structure MSt where
  prev : Option Char
  rest : List Char

/-- Result handed to a continuation: final state plus captures. -/
abbrev MRes := MSt × List (Nat × String)

def oorElse (a : Option α) (b : Unit → Option α) : Option α :=
  match a with
  | some v => some v
  | none => b ()

/-- Backtracking matcher in continuation-passing style.  `ci` is the
case-insensitivity flag of the JS regex.  The fuel only bounds call
depth; it is chosen large enough to never be exhausted in practice. -/
def mrun (ci : Bool) : Nat → Rgx → MSt → List (Nat × String) →
    (MSt → List (Nat × String) → Option MRes) → Option MRes
  | 0, _, _, _, _ => none
  | fuel + 1, r, s, caps, k =>
    match r with
    | .eps => k s caps
    | .ch c =>
      match s.rest with
      | [] => none
      | d :: rest' =>
        if (if ci then c.lowerAscii = d.lowerAscii else c = d) then
          k ⟨some d, rest'⟩ caps
        else none
    | .cls p =>
      match s.rest with
      | [] => none
      | d :: rest' => if p d then k ⟨some d, rest'⟩ caps else none
    | .seq a b =>
      mrun ci fuel a s caps (fun s' caps' => mrun ci fuel b s' caps' k)
    | .alt a b =>
      oorElse (mrun ci fuel a s caps k) (fun _ => mrun ci fuel b s caps k)
    | .star greedy r' =>
      let again := fun (s' : MSt) (caps' : List (Nat × String)) =>
        if s'.rest.length < s.rest.length then
          mrun ci fuel (.star greedy r') s' caps' k
        else
          -- an iteration that consumed nothing ends the loop (JS rule)
          k s' caps'
      if greedy then
        oorElse (mrun ci fuel r' s caps again) (fun _ => k s caps)
      else
        oorElse (k s caps) (fun _ => mrun ci fuel r' s caps again)
    | .group n r' =>
      mrun ci fuel r' s caps (fun s' caps' =>
        let txt := String.mk (s.rest.take (s.rest.length - s'.rest.length))
        k s' ((n, txt) :: caps'))
    | .bos => if s.prev.isNone then k s caps else none
    | .eos => if s.rest.isEmpty then k s caps else none
    | .wb =>
      let pw := match s.prev with | some c => jsWordChar c | none => false
      let nw := match s.rest with | c :: _ => jsWordChar c | [] => false
      if pw ≠ nw then k s caps else none
    | .nla r' =>
      match mrun ci fuel r' s caps (fun s' caps' => some (s', caps')) with
      | some _ => none
      | none => k s caps

/-- Fuel that comfortably bounds the call depth of any match attempt of
the patterns of the source module. -/
def fuelFor (rest : List Char) : Nat := 4000 * (rest.length + 2)

/-- Try to match `r` exactly at the position described by `s`; returns
the state after the match and the captures. -/
def mAt (ci : Bool) (r : Rgx) (s : MSt) : Option MRes :=
  mrun ci (fuelFor s.rest) r s [] (fun s' caps => some (s', caps))

/-- Leftmost search, JS `String.prototype.match` / `RegExp.test` style.
Returns (start index, matched length, captures). -/
def reFindAux (ci : Bool) (r : Rgx) : Option Char → Nat → List Char →
    Option (Nat × Nat × List (Nat × String))
  | prev, idx, [] =>
    match mAt ci r ⟨prev, []⟩ with
    | some (_, caps) => some (idx, 0, caps)
    | none => none
  | prev, idx, c :: rest' =>
    match mAt ci r ⟨prev, c :: rest'⟩ with
    | some (s', caps) => some (idx, (c :: rest').length - s'.rest.length, caps)
    | none => reFindAux ci r (some c) (idx + 1) rest' 

def reSearch (ci : Bool) (r : Rgx) (s : String) :
    Option (Nat × Nat × List (Nat × String)) :=
  reFindAux ci r none 0 s.data

/-- JS `regex.test(s)`. -/
def reTest (ci : Bool) (r : Rgx) (s : String) : Bool :=
  (reSearch ci r s).isSome

/-- Capture group `n` of a search result (`match[n]`). -/
def reGroup (res : Option (Nat × Nat × List (Nat × String))) (n : Nat) :
    Option String :=
  match res with
  | some (_, _, caps) => caps.lookup n
  | none => none

/-- JS `s.replace(re, repl)` without the `g` flag: first match only. -/
def reReplaceFirst (ci : Bool) (r : Rgx) (repl : String) (s : String) : String :=
  match reSearch ci r s with
  | none => s
  | some (i, n, _) =>
    String.mk (s.data.take i ++ repl.data ++ s.data.drop (i + n))

/-- Worker for global replace: walk the original string, substituting
every (non-overlapping, leftmost) match. -/
def reReplaceAllAux (ci : Bool) (r : Rgx) (repl : List Char) :
    Nat → Option Char → List Char → List Char
  | 0, _, rest => rest
  | fuel + 1, prev, rest =>
    match mAt ci r ⟨prev, rest⟩ with
    | some (s', _) =>
      let n := rest.length - s'.rest.length
      if n = 0 then
        -- unreachable for the patterns of the module (none matches "")
        match rest with
        | [] => repl
        | c :: rest' => repl ++ c :: reReplaceAllAux ci r repl fuel (some c) rest'
      else
        repl ++ reReplaceAllAux ci r repl fuel s'.prev s'.rest
    | none =>
      match rest with
      | [] => []
      | c :: rest' => c :: reReplaceAllAux ci r repl fuel (some c) rest'

/-- JS `s.replace(re, repl)` with the `g` flag. -/
def reReplaceAll (ci : Bool) (r : Rgx) (repl : String) (s : String) : String :=
  String.mk (reReplaceAllAux ci r repl.data (s.data.length + 1) none s.data)

/-- Worker for `String.prototype.split(regex)`. -/
def reSplitAux (ci : Bool) (r : Rgx) :
    Nat → Option Char → List Char → List Char → List String
  | 0, _, accRev, rest => [String.mk (accRev.reverse ++ rest)]
  | fuel + 1, prev, accRev, rest =>
    match mAt ci r ⟨prev, rest⟩ with
    | some (s', _) =>
      let n := rest.length - s'.rest.length
      if n = 0 then
        match rest with
        | [] => [String.mk accRev.reverse]
        | c :: rest' => reSplitAux ci r fuel (some c) (c :: accRev) rest'
      else
        String.mk accRev.reverse :: reSplitAux ci r fuel s'.prev [] s'.rest
    | none =>
      match rest with
      | [] => [String.mk accRev.reverse]
      | c :: rest' => reSplitAux ci r fuel (some c) (c :: accRev) rest'

/-- JS `s.split(regex)` (no captures in the separator). -/
def reSplit (ci : Bool) (r : Rgx) (s : String) : List String :=
  reSplitAux ci r (s.data.length + 1) none [] s.data

/-! ### Combinators used to transcribe the regex literals of the source -/

/-- Literal string. -/
def rstr (s : String) : Rgx := (s.data.map Rgx.ch).foldr Rgx.seq Rgx.eps

/-- Sequence of pieces. -/
def rcat (l : List Rgx) : Rgx := l.foldr Rgx.seq Rgx.eps

/-- Ordered alternation `a|b|…` (left to right, as in JS). -/
def ralt : List Rgx → Rgx
  | [] => Rgx.cls (fun _ => false)
  | [r] => r
  | r :: rs => Rgx.alt r (ralt rs)

/-- `X?` (greedy). -/
def ropt (r : Rgx) : Rgx := Rgx.alt r Rgx.eps

/-- `X+` (greedy). -/
def rplus (r : Rgx) : Rgx := Rgx.seq r (Rgx.star true r)

/-- `\s`. -/
def rws : Rgx := Rgx.cls Char.isWhitespace

/-- `\s+`. -/
def rwsP : Rgx := rplus rws

/-- `\s*`. -/
def rwsS : Rgx := Rgx.star true rws

/-- `\d`. -/
def rdigit : Rgx := Rgx.cls Char.isDigit

/-- `\d+`. -/
def rnum : Rgx := rplus rdigit

/-- `\d+(\.\d+)?` (also used for the non-capturing variant). -/
def rnumFrac : Rgx := Rgx.seq rnum (ropt (Rgx.seq (Rgx.ch '.') rnum))

/-- `\d+(?:\.\d{1,2})?`. -/
def rnumFrac2 : Rgx :=
  Rgx.seq rnum (ropt (Rgx.seq (Rgx.ch '.') (Rgx.seq rdigit (ropt rdigit))))

/-- `[a-zA-Z]`. -/
def ralpha : Rgx := Rgx.cls Char.isAlpha

/-- `\b…\b` around a literal word. -/
def rword (w : String) : Rgx := rcat [Rgx.wb, rstr w, Rgx.wb]

/-! ## JS string helpers -/

def strIncludesGo (pat : List Char) : List Char → Bool
  | [] => pat.isPrefixOf []
  | c :: t => pat.isPrefixOf (c :: t) || strIncludesGo pat t

/-- JS `s.includes(pat)`. -/
def strIncludes (s pat : String) : Bool := strIncludesGo pat.data s.data

/-- The proposition that `pat` occurs inside `s`. -/
def containsSubstr (s pat : String) : Prop := strIncludes s pat = true

instance (s pat : String) : Decidable (containsSubstr s pat) := by
  unfold containsSubstr; infer_instance

/-- JS `s.toLowerCase()` (ASCII, over the character list). -/
def String.lowerAscii (s : String) : String :=
  String.mk (s.data.map Char.lowerAscii)

/-- JS `s.trim()` (whitespace from both ends, over the character list). -/
def String.trimAscii (s : String) : String :=
  String.mk (((s.data.dropWhile Char.isWhitespace).reverse.dropWhile
    Char.isWhitespace).reverse)

def sSplitChGo (sep : Char) : List Char → List Char → List String
  | accRev, [] => [String.mk accRev.reverse]
  | accRev, c :: t =>
    if c = sep then String.mk accRev.reverse :: sSplitChGo sep [] t
    else sSplitChGo sep (c :: accRev) t

/-- JS `s.split(sep)` for a single-character separator. -/
def sSplitChar (sep : Char) (s : String) : List String :=
  sSplitChGo sep [] s.data

def sSplitPredGo (p : Char → Bool) : List Char → List Char → List String
  | accRev, [] => [String.mk accRev.reverse]
  | accRev, c :: t =>
    if p c then String.mk accRev.reverse :: sSplitPredGo p [] t
    else sSplitPredGo p (c :: accRev) t

/-- Split at every character satisfying `p`; the only use filters out
all pieces of length < 3, where this coincides with JS
`split(/\s+/)`. -/
def sSplitPred (p : Char → Bool) (s : String) : List String :=
  sSplitPredGo p [] s.data

/-- JS `word.charAt(0).toUpperCase() + word.slice(1).toLowerCase()`
mapped over `split(' ')` and re-joined — the title-casing idiom used
throughout the module. -/
def titleCase (s : String) : String :=
  String.intercalate " " ((sSplitChar ' ' s).map (fun w =>
    match w.data with
    | [] => ""
    | c :: cs => String.mk (c.upperAscii :: cs.map Char.lowerAscii)))

/-- The variant at the `UNKNOWN_ITEM` fallback of `parseSingleItem`:
`word.charAt(0).toUpperCase() + word.slice(1)` (rest of the word kept
as is). -/
def titleCaseKeep (s : String) : String :=
  String.intercalate " " ((sSplitChar ' ' s).map (fun w =>
    match w.data with
    | [] => ""
    | c :: cs => String.mk (c.upperAscii :: cs)))

def digitsToNat (l : List Char) : Nat :=
  l.foldl (fun n c => 10 * n + (c.toNat - '0'.toNat)) 0

/-- `parseFloat` on the decimal strings captured by the patterns of the module
 (`\d+` optionally followed by `.` and more digits): exact. -/
def parseDecimal (s : String) : ℚ :=
  match sSplitChar '.' s with
  | [i] => (digitsToNat i.data : ℚ)
  | [i, f] => (digitsToNat i.data : ℚ) + (digitsToNat f.data : ℚ) / (10 ^ f.length)
  | _ => 0

/-- JS template-string rendering of a number (used only inside warning
messages): decimal notation when the denominator divides a power of
ten. -/
def decStr (q : ℚ) : String :=
  if q.den = 1 then toString q.num
  else
    match (List.range 12).find? (fun k => (q * (10 : ℚ) ^ k).den = 1) with
    | some k =>
      let n := (q * (10 : ℚ) ^ k).num
      let sign := if n < 0 then "-" else ""
      let m := n.natAbs
      let fpStr := toString (m % 10 ^ k)
      sign ++ toString (m / 10 ^ k) ++ "." ++
        String.mk (List.replicate (k - fpStr.length) '0') ++ fpStr
    | none => toString q.num ++ "/" ++ toString q.den

/-- JS `s || d` for strings (empty string is falsy). -/
def jsOrStr (s d : String) : String := if s = "" then d else s

/-- JS `o || d` where `o : string | undefined`. -/
def jsOrStrOpt (o : Option String) (d : String) : String :=
  match o with
  | some s => if s = "" then d else s
  | none => d

/-- JS `q || d` for numbers (0 is falsy). -/
def jsOrQ (q d : ℚ) : ℚ := if q = 0 then d else q

/-! ## Data model -/

/-- `'cash-in' | 'cash-out'`. -/
inductive TxType where
  | cashIn
  | cashOut
deriving DecidableEq

/-- `'sale' | 'payment'`. -/
inductive CreditType where
  | sale
  | payment
deriving DecidableEq

/-- A parsed transaction entry (a subset of the Entry fields) as built by `parseSingleItem`
(and enriched by `parseSentenceWithPriceLookup`).  `transaction_date`
(wall clock) is outside the model.  `price_source` is the provenance
metadata the enrichment step adds. -/
structure ParsedEntry where
  item : String
  qty : ℚ
  unit : String
  price : ℚ
  total : ℚ
  type : TxType
  source_text : String
  price_source : Option String := none
deriving DecidableEq

structure OrderItem where
  item : String
  qty : ℚ
  price : Option ℚ
  delivery_date : Option String
deriving DecidableEq

structure OrderPayload where
  customer : String
  items : List OrderItem
deriving DecidableEq

structure PriceUpdate where
  item : String
  price : ℚ
deriving DecidableEq

structure CreditItem where
  item : String
  qty : ℚ
  unit : String
  price : ℚ
  total : ℚ
deriving DecidableEq

structure CreditPayload where
  ctype : CreditType
  customer : String
  amount : Option ℚ := none
  item : Option String := none
  qty : Option ℚ := none
  unit : Option String := none
  price : Option ℚ := none
  items : Option (List CreditItem) := none
deriving DecidableEq

/-- `'transaction' | 'order' | 'price' | 'credit'`. -/
inductive RType where
  | transaction
  | order
  | price
  | credit
deriving DecidableEq

/-- The `ParsedResult` envelope.  Optional JS fields are `Option`;
the optional boolean `forceReview` is modelled with `false` for
"absent" (the UI only ever tests its truthiness). -/
structure ParsedResult where
  rtype : RType
  entry : Option ParsedEntry := none
  order : Option OrderPayload := none
  priceUpdates : Option (List PriceUpdate) := none
  credit : Option CreditPayload := none
  warnings : List String
  source_text : String
  forceReview : Bool := false
deriving DecidableEq

/-- The `lookupPrice` collaborator: `Except.error ()` models a thrown
error / rejected promise, `Except.ok none` models `null`. -/
abbrev PriceLookup := String → Except Unit (Option ℚ)

/-- The `ParsingError` codes thrown by `extractItem`. -/
inductive PErr where
  | EMPTY_INPUT
  | UNKNOWN_ITEM
deriving DecidableEq

/-! ## Constant tables -/

def KNOWN_UNITS : List String :=
  ["kg", "g", "gram", "grams", "kilo", "kilos", "kilogram", "kilograms",
   "l", "liter", "liters", "litre", "litres", "ml", "milliliter", "milliliters",
   "packet", "packets", "pack", "packs", "box", "boxes", "item", "items",
   "dozen", "dozens", "piece", "pieces", "pc", "pcs",
   "bottle", "bottles", "btl", "can", "cans",
   "bag", "bags", "sack", "sacks"]

def ORDER_KEYWORDS : List String :=
  ["order", "orders", "ordered", "ordering",
   "deliver", "delivery", "delivers", "delivering",
   "book", "booking", "booked", "books",
   "reserve", "reservation", "reserved", "reserves"]

def SPECIAL_CASE_ITEMS : List (String × String) :=
  [("parle g", "Parle G"), ("parle-g", "Parle G"), ("maggi", "Maggi"),
   ("lays", "Lays"), ("amul", "Amul"), ("tata", "Tata"),
   ("britannia", "Britannia"), ("nuti g", "Nuti G")]

/-! ## Lexical helpers -/

/-- `normalizeUnit`. -/
def normalizeUnit (u : String) : String :=
  let unit := u.lowerAscii.trimAscii
  if ["kgs", "kilos", "kilograms"].contains unit then "kg"
  else if ["grams", "gram", "gm", "gms"].contains unit then "g"
  else if ["litres", "litre", "ltr", "ltrs", "liters", "liter"].contains unit then "l"
  else if ["milliliters", "milliliter", "mls"].contains unit then "ml"
  else if ["pcs", "pieces", "piece", "pc"].contains unit then "piece"
  else if ["packets", "pack", "packs"].contains unit then "packet"
  else if ["bottles", "btl", "btls"].contains unit then "bottle"
  else if ["dozens"].contains unit then "dozen"
  else unit

/-- `isOrderCommand`. -/
def isOrderCommand (text : String) : Bool :=
  if text = "" then false
  else
    let lowerText := text.lowerAscii
    ORDER_KEYWORDS.any (fun keyword => strIncludes lowerText keyword)

/-- `/^credit\s+sales?\s+/i`. -/
def creditSalesRE : Rgx :=
  rcat [Rgx.bos, rstr "credit", rwsP, rstr "sale", ropt (Rgx.ch 's'), rwsP]

/-- `/^credit\s+paid\s+/i`. -/
def creditPaidRE : Rgx :=
  rcat [Rgx.bos, rstr "credit", rwsP, rstr "paid", rwsP]

/-- `isCreditCommand` (strict anchored form). -/
def isCreditCommand (text : String) : Bool :=
  if text = "" then false
  else
    let trimmed := text.trimAscii
    reTest true creditSalesRE trimmed || reTest true creditPaidRE trimmed

/-- `getCreditCommandType`. -/
def getCreditCommandType (text : String) : Option CreditType :=
  if text = "" then none
  else
    let trimmed := text.trimAscii
    if reTest true creditSalesRE trimmed then some CreditType.sale
    else if reTest true creditPaidRE trimmed then some CreditType.payment
    else none

/-- `/\bfor\s+([a-zA-Z][a-zA-Z\s]*?)(?:\s*$)/`. -/
def forCustomerRE : Rgx :=
  rcat [Rgx.wb, rstr "for", rwsP,
        Rgx.group 1 (Rgx.seq ralpha
          (Rgx.star false (Rgx.cls (fun c => c.isAlpha || c.isWhitespace)))),
        rwsS, Rgx.eos]

def excludeWords : List String :=
  ["one", "two", "three", "four", "five", "six", "seven", "eight", "nine", "ten",
   "kg", "gram", "grams", "packet", "packets", "piece", "pieces", "liter", "liters",
   "rice", "wheat", "sugar", "oil", "milk", "bread", "biscuit", "biscuits"]

/-- `extractCustomerName`. -/
def extractCustomerName (text : String) : Option String :=
  if text = "" then none
  else
    let lowerText := text.lowerAscii
    match reGroup (reSearch false forCustomerRE lowerText) 1 with
    | some m =>
      if m = "" then none
      else
        let customerName := m.trimAscii
        if excludeWords.contains customerName.lowerAscii then none
        else if customerName.length = 1 then none
        else some (titleCase customerName)
    | none => none

/-- The `cashInPatterns` of `determineTransactionType`. -/
def cashInREs : List Rgx :=
  [rcat [Rgx.wb, Rgx.group 1 (ralt [rstr "sold", rstr "sell", rstr "selling",
     rstr "sale", rstr "sales"]), Rgx.wb],
   rcat [Rgx.wb, Rgx.group 1 (ralt [rstr "income", rstr "earned",
     rstr "received", rstr "got"]), Rgx.wb],
   rcat [Rgx.wb, Rgx.group 1 (ralt [rstr "customer", rstr "client"]), rwsP,
     Rgx.group 2 (ralt [rstr "bought", rstr "purchased"])],
   rcat [Rgx.wb, Rgx.group 1 (ralt [rstr "made", rstr "earned"]), rwsP,
     Rgx.group 2 (ralt [rstr "money", rstr "profit", rstr "rs",
       rstr "rupees", rstr "₹"])]]

/-- The `cashOutPatterns` of `determineTransactionType`. -/
def cashOutREs : List Rgx :=
  [rcat [Rgx.wb, Rgx.group 1 (ralt [rstr "bought", rstr "buy", rstr "buying",
     rstr "purchased", rstr "purchase", rstr "purchasing"]), Rgx.wb],
   rcat [Rgx.wb, Rgx.group 1 (ralt [rstr "spent", rstr "spend",
     rstr "spending", rstr "expense", rstr "expenses", rstr "cost",
     rstr "costs"]), Rgx.wb],
   rcat [Rgx.wb, Rgx.group 1 (ralt [rstr "paid", rstr "pay", rstr "paying",
     rstr "payment"]), rwsP,
     Rgx.nla (ralt [rcat [rstr "to", rwsP, rstr "customer"],
       rcat [rstr "from", rwsP, rstr "customer"]])],
   rcat [Rgx.wb, Rgx.group 1 (ralt [rstr "invested", rstr "investment",
     rstr "supplies", rstr "supply"]), Rgx.wb],
   rcat [Rgx.wb, Rgx.group 1 (ralt [rstr "bill", rstr "bills",
     rstr "invoice", rstr "invoices"]), Rgx.wb]]

/-- `/\b(rs\.?|rupees?|₹|\d+)/i`. -/
def priceIndicatorRE : Rgx :=
  rcat [Rgx.wb, Rgx.group 1 (ralt
    [Rgx.seq (rstr "rs") (ropt (Rgx.ch '.')),
     Rgx.seq (rstr "rupee") (ropt (Rgx.ch 's')),
     rstr "₹", rnum])]

/-- `determineTransactionType` (enhanced version). -/
def determineTransactionType (text : String) : TxType :=
  if text = "" || text.trimAscii = "" then TxType.cashIn
  else
    let lowerText := text.lowerAscii.trimAscii
    if cashOutREs.any (fun p => reTest true p lowerText) then TxType.cashOut
    else if cashInREs.any (fun p => reTest true p lowerText) then TxType.cashIn
    -- fallback: price indicators → cash-in; default also cash-in
    else if reTest true priceIndicatorRE lowerText then TxType.cashIn
    else TxType.cashIn

/-- `rs\.?|rupees?|₹` (non-capturing currency token). -/
def rcurrency : Rgx :=
  ralt [Rgx.seq (rstr "rs") (ropt (Rgx.ch '.')),
        Rgx.seq (rstr "rupee") (ropt (Rgx.ch 's')),
        rstr "₹"]

/-- The five `pricePatterns` of `extractPrice`, in order (all `/i`). -/
def pricePatterns : List Rgx :=
  [ -- (?:for\s+)?(?:rs\.?|rupees?|₹)\s*(\d+(?:\.\d{1,2})?)
   rcat [ropt (Rgx.seq (rstr "for") rwsP), rcurrency, rwsS,
     Rgx.group 1 rnumFrac2],
   -- (?:for\s+)?(\d+(?:\.\d{1,2})?)\s*(?:rs\.?|rupees?|₹)
   rcat [ropt (Rgx.seq (rstr "for") rwsP), Rgx.group 1 rnumFrac2, rwsS,
     rcurrency],
   -- (?:at|for)\s*(\d+(?:\.\d{1,2})?)\s*(?:rs\.?|rupees?|₹)?\s*(?:each|per|a\s+piece)
   rcat [ralt [rstr "at", rstr "for"], rwsS, Rgx.group 1 rnumFrac2, rwsS,
     ropt rcurrency, rwsS,
     ralt [rstr "each", rstr "per", Rgx.seq (rstr "a") (Rgx.seq rwsP (rstr "piece"))]],
   -- (?:costs?|price)\s*(?:rs\.?|rupees?|₹)?\s*(\d+(?:\.\d{1,2})?)
   rcat [ralt [Rgx.seq (rstr "cost") (ropt (Rgx.ch 's')), rstr "price"], rwsS,
     ropt rcurrency, rwsS, Rgx.group 1 rnumFrac2],
   -- (?:^|[^\d])(\d+(?:\.\d{1,2})?)(?:\s*(?:rs\.?|rupees?|₹))
   rcat [ralt [Rgx.bos, Rgx.cls (fun c => !c.isDigit)], Rgx.group 1 rnumFrac2,
     rwsS, rcurrency]]

def extractPriceGo (text : String) : List Rgx → Option ℚ
  | [] => none
  | p :: ps =>
    match reGroup (reSearch true p text) 1 with
    | some m =>
      if m ≠ "" then
        let price := parseDecimal m
        if 0 < price then some price else extractPriceGo text ps
      else extractPriceGo text ps
    | none => extractPriceGo text ps

/-- `extractPrice` (enhanced version). -/
def extractPrice (text : String) : Option ℚ :=
  if text = "" then none else extractPriceGo text pricePatterns

/-- The unit alternation inside the first `quantityPatterns` regex, in
source order. -/
def qtyUnitAlt : Rgx :=
  ralt ((["kg", "g", "gram", "grams", "kilo", "kilos", "kilogram",
    "kilograms", "l", "liter", "liters", "litre", "litres", "ml", "packet",
    "packets", "pack", "packs", "piece", "pieces", "pc", "pcs", "box",
    "boxes", "bottle", "bottles", "can", "cans", "bag", "bags", "dozen",
    "dozens"]).map rstr)

/-- The three `quantityPatterns` of `extractQuantity`, with their
case-insensitivity flags. -/
def quantityPatterns : List (Rgx × Bool) :=
  [ -- /\b(\d+(?:\.\d+)?)\s*(?:kg|…|dozens)\b/i
   (rcat [Rgx.wb, Rgx.group 1 rnumFrac, rwsS, qtyUnitAlt, Rgx.wb], true),
   -- /^\s*(\d+(?:\.\d+)?)\b/
   (rcat [Rgx.bos, rwsS, Rgx.group 1 rnumFrac, Rgx.wb], false),
   -- /\b(\d+(?:\.\d+)?)\s+of\b/i
   (rcat [Rgx.wb, Rgx.group 1 rnumFrac, rwsP, rstr "of", Rgx.wb], true)]

def extractQuantityGo (text : String) : List (Rgx × Bool) → ℚ
  | [] => 1
  | (p, ci) :: ps =>
    match reGroup (reSearch ci p text) 1 with
    | some m =>
      if m ≠ "" then
        let quantity := parseDecimal m
        if 0 < quantity then quantity else extractQuantityGo text ps
      else extractQuantityGo text ps
    | none => extractQuantityGo text ps

/-- `extractQuantity` (enhanced version). -/
def extractQuantity (text : String) : ℚ :=
  if text = "" then 1 else extractQuantityGo text quantityPatterns

/-- `/parle[\s-]*g\b/i`. -/
def parleGRE : Rgx :=
  rcat [rstr "parle",
        Rgx.star true (Rgx.cls (fun c => c.isWhitespace || c = '-')),
        Rgx.ch 'g', Rgx.wb]

def containsSpecialBrandGo (t : String) : List (String × String) → Option String
  | [] => none
  | (brand, name) :: rest =>
    if strIncludes t brand then some name else containsSpecialBrandGo t rest

/-- `containsSpecialBrand`. -/
def containsSpecialBrand (text : String) : Option String :=
  if text = "" then none
  else
    let t := text.lowerAscii
    if reTest true parleGRE t then some "Parle G"
    else containsSpecialBrandGo t SPECIAL_CASE_ITEMS

def extractUnitGo (t : String) : List String → Option String
  | [] => none
  | unit :: rest =>
    if reTest true (rword unit) t then some (normalizeUnit unit)
    else extractUnitGo t rest

/-- `extractUnit`. -/
def extractUnit (text : String) : Option String :=
  if text = "" then none
  else
    let t := text.lowerAscii
    if reTest true parleGRE t then
      if ["packet", "packets", "pack", "packs"].any (fun u => strIncludes t u) then
        some "packet"
      else some ""
    else extractUnitGo t KNOWN_UNITS

/-! ## Item extractor (`extractItem`, enhanced version) -/

/-- `/\b(sold|sell|sale|bought|buy|purchased|expense|spent|income|earned)\b/gi`. -/
def itemVerbsRE : Rgx :=
  rcat [Rgx.wb, Rgx.group 1 (ralt [rstr "sold", rstr "sell", rstr "sale",
    rstr "bought", rstr "buy", rstr "purchased", rstr "expense", rstr "spent",
    rstr "income", rstr "earned"]), Rgx.wb]

/-- `/\b(credit|paid|payment|cash|money)\b/gi`. -/
def itemCreditWordsRE : Rgx :=
  rcat [Rgx.wb, Rgx.group 1 (ralt [rstr "credit", rstr "paid",
    rstr "payment", rstr "cash", rstr "money"]), Rgx.wb]

/-- `/\b(to|from|by|for|with|of|in|on|at|the|a|an)\b/gi`. -/
def itemStopwordsRE : Rgx :=
  rcat [Rgx.wb, Rgx.group 1 (ralt [rstr "to", rstr "from", rstr "by",
    rstr "for", rstr "with", rstr "of", rstr "in", rstr "on", rstr "at",
    rstr "the", rstr "a", rstr "an"]), Rgx.wb]

/-- `/\b(rs\.?|rupees?|₹|each|per)\b/gi`. -/
def itemCurrencyRE : Rgx :=
  rcat [Rgx.wb, Rgx.group 1 (ralt [rcurrency, rstr "each", rstr "per"]),
    Rgx.wb]

/-- `/[^\w\s]/g`. -/
def punctRE : Rgx := Rgx.cls (fun c => !(jsWordChar c || c.isWhitespace))

/-- `extractItem` (enhanced version); the two `ParsingError` kinds are
the `Except.error` values. -/
def extractItem (text : String) : Except PErr String :=
  if text = "" || text.trimAscii = "" then Except.error PErr.EMPTY_INPUT
  else
    match containsSpecialBrand text with
    | some specialBrand =>
      let lowerText := text.lowerAscii
      if strIncludes lowerText "biscuit" &&
          !(strIncludes specialBrand.lowerAscii "biscuit") then
        Except.ok (specialBrand ++ " Biscuits")
      else if strIncludes lowerText "noodle" &&
          !(strIncludes specialBrand.lowerAscii "noodle") then
        Except.ok (specialBrand ++ " Noodles")
      else if strIncludes lowerText "chips" &&
          !(strIncludes specialBrand.lowerAscii "chips") then
        Except.ok (specialBrand ++ " Chips")
      else Except.ok specialBrand
    | none =>
      let originalText := text
      let t := text.lowerAscii
      let c1 := reReplaceAll true itemVerbsRE "" t
      let c2 := reReplaceAll true itemCreditWordsRE "" c1
      let c3 := reReplaceAll true itemStopwordsRE "" c2
      let c4 := reReplaceAll false rnumFrac "" c3
      let c5 := reReplaceAll true itemCurrencyRE "" c4
      let c6 := reReplaceAll false punctRE " " c5
      let cleanedText := (reReplaceAll false rwsP " " c6).trimAscii
      let itemText := KNOWN_UNITS.foldl (fun acc unit =>
        reReplaceAll true
          (rcat [Rgx.wb, rstr unit, ropt (Rgx.ch 's'), Rgx.wb]) "" acc)
        cleanedText
      let itemText := (reReplaceAll false rwsP " " itemText).trimAscii
      if itemText.length < 2 then
        -- secondary heuristic over the original text
        let words := ((reReplaceAll false punctRE " " originalText) |> sSplitPred Char.isWhitespace).filter (fun word =>
          2 < word.length &&
          !(["sold", "sell", "sale", "bought", "buy", "purchased", "expense",
             "spent", "for", "from", "the"].contains word.lowerAscii) &&
          !(word ≠ "" && word.data.all Char.isDigit) &&
          !(KNOWN_UNITS.contains word.lowerAscii))
        if !words.isEmpty then
          Except.ok (titleCase (String.intercalate " " words))
        else Except.error PErr.UNKNOWN_ITEM
      else Except.ok (titleCase itemText)

/-! ## Single-item parser (`parseSingleItem`) -/

/-- `/\b(sold|sell|sale|bought|buy|purchased|expense|spent)\b/gi`
(the `UNKNOWN_ITEM` fallback inside `parseSingleItem`). -/
def fallbackVerbsRE : Rgx :=
  rcat [Rgx.wb, Rgx.group 1 (ralt [rstr "sold", rstr "sell", rstr "sale",
    rstr "bought", rstr "buy", rstr "purchased", rstr "expense",
    rstr "spent"]), Rgx.wb]

/-- `/\b(rs\.?|rupees?|₹|each|per|for|at)\b/gi`. -/
def fallbackCurrencyRE : Rgx :=
  rcat [Rgx.wb, Rgx.group 1 (ralt [rcurrency, rstr "each", rstr "per",
    rstr "for", rstr "at"]), Rgx.wb]

/-- Tail of `parseSingleItem` once item and unit are known: price
extraction (`|| 0`), `total = price * qty`, entry construction and the
require-an-item validation. -/
def finishSingleItem (cleanedChunk : String) (type : TxType) (qty : ℚ)
    (item unit : String) : Option ParsedEntry :=
  let price := (extractPrice cleanedChunk).getD 0
  let total := price * qty
  if item = "" || item.trimAscii = "" then none
  else some { item := item, qty := qty, unit := unit, price := price,
              total := total, type := type, source_text := cleanedChunk }

/-- `parseSingleItem`.  The outer `try/catch` that maps any escaped
error to `null` is the `Except.error PErr.EMPTY_INPUT => none` arm
(the only error that can escape the inner handler). -/
def parseSingleItem (chunk : String) : Option ParsedEntry :=
  if chunk = "" || chunk.trimAscii = "" then none
  else
    let cleanedChunk := chunk.trimAscii
    let type := determineTransactionType cleanedChunk
    let qty := extractQuantity cleanedChunk
    match containsSpecialBrand cleanedChunk with
    | some specialBrand =>
      let lowerText := cleanedChunk.lowerAscii
      let item :=
        if strIncludes lowerText "biscuit" &&
            !(strIncludes specialBrand.lowerAscii "biscuit") then
          specialBrand ++ " Biscuits"
        else specialBrand
      let unit := if strIncludes cleanedChunk.lowerAscii "packet" then "packet" else ""
      finishSingleItem cleanedChunk type qty item unit
    | none =>
      let unit := jsOrStrOpt (extractUnit cleanedChunk) ""
      match extractItem cleanedChunk with
      | Except.ok item => finishSingleItem cleanedChunk type qty item unit
      | Except.error PErr.UNKNOWN_ITEM =>
        -- use the whole chunk as the item name
        let n1 := reReplaceAll true fallbackVerbsRE "" cleanedChunk.lowerAscii
        let n2 := reReplaceAll true fallbackCurrencyRE "" n1
        let cleanedName := (reReplaceAll false rwsP " " n2).trimAscii
        if 0 < cleanedName.length then
          finishSingleItem cleanedChunk type qty (titleCaseKeep cleanedName) unit
        else none
      | Except.error PErr.EMPTY_INPUT => none

/-! ## Sentence splitter (`parseSentence`) -/

/-- Worker for `cleaned.split(/,| and |(?<=[.!?]) (?=[0-9])/)`:
alternatives tried in that order at each position. -/
def splitTxGo : Nat → Option Char → List Char → List Char → List String
  | 0, _, accRev, rest => [String.mk (accRev.reverse ++ rest)]
  | fuel + 1, prev, accRev, l =>
    match l with
    | [] => [String.mk accRev.reverse]
    | c :: rest =>
      if c = ',' then
        String.mk accRev.reverse :: splitTxGo fuel (some c) [] rest
      else if c = ' ' && rest.take 4 = ['a', 'n', 'd', ' '] then
        String.mk accRev.reverse :: splitTxGo fuel (some ' ') [] (rest.drop 4)
      else if c = ' ' && (prev = some '.' || prev = some '!' || prev = some '?')
          && (match rest with | d :: _ => d.isDigit | [] => false) then
        String.mk accRev.reverse :: splitTxGo fuel (some c) [] rest
      else splitTxGo fuel (some c) (c :: accRev) rest

def splitTx (s : String) : List String :=
  splitTxGo (s.data.length + 1) none [] s.data

/-- `parseSentence`: lower-case, split into chunks, map
`parseSingleItem`, with whole-string fallbacks.  (Its `try/catch` is
unreachable: the body is total here.) -/
def parseSentence (raw : String) : List ParsedEntry :=
  if raw = "" || raw.trimAscii = "" then []
  else
    let cleaned := raw.lowerAscii
    let chunks := splitTx cleaned
    if chunks.length ≤ 1 then
      match parseSingleItem raw with
      | some r => [r]
      | none => []
    else
      let results := chunks.filterMap (fun c =>
        if c.trimAscii ≠ "" then parseSingleItem c else none)
      if results.isEmpty then
        match parseSingleItem raw with
        | some r => [r]
        | none => []
      else results

/-! ## Order parser (`parseOrderCommand`) -/

/-- `/\s+and\s+|,\s*/` (the order-items / price-parts splitter). -/
def andCommaRE : Rgx :=
  Rgx.alt (rcat [rwsP, rstr "and", rwsP]) (Rgx.seq (Rgx.ch ',') rwsS)

/-- Order keyword and customer stripping of `parseOrderCommand`. -/
def orderItemTextOf (text : String) (customer : Option String) : String :=
  let t := ORDER_KEYWORDS.foldl
    (fun acc keyword => reReplaceAll true (rword keyword) "" acc) text.lowerAscii
  let t := match customer with
    | some c =>
      -- new RegExp with pattern \bfor\s+customer.toLowerCase()\b and flags gi
      reReplaceAll true
        (rcat [Rgx.wb, rstr "for", rwsP, rstr c.lowerAscii, Rgx.wb]) "" t
    | none => t
  t.trimAscii

/-- Mapping of one parsed entry into an order item
(`qty || 1`, `price || null`). -/
def toOrderItem (e : ParsedEntry) : Option OrderItem :=
  if e.item ≠ "" then
    some { item := e.item, qty := jsOrQ e.qty 1,
           price := if e.price = 0 then none else some e.price,
           delivery_date := none }
  else none

/-- Item collection of `parseOrderCommand`: multi-chunk path via
`parseSingleItem`, single-chunk path via `parseSentence`. -/
def orderItemsOf (text : String) (customer : Option String) : List OrderItem :=
  let itemText := orderItemTextOf text customer
  let itemChunks := (reSplit false andCommaRE itemText).filter
    (fun chunk => chunk.trimAscii ≠ "")
  if 1 < itemChunks.length then
    itemChunks.filterMap (fun chunk =>
      let trimmedChunk := chunk.trimAscii
      if trimmedChunk = "" then none
      else
        match parseSingleItem trimmedChunk with
        | some parsedItem => toOrderItem parsedItem
        | none => none)
  else
    (parseSentence itemText).filterMap toOrderItem

/-- `parseOrderCommand`.  (Its `catch` branch is unreachable here: the
body is total.) -/
def parseOrderCommand (text : String) : ParsedResult :=
  if text = "" || text.trimAscii = "" then
    { rtype := RType.order, warnings := ["Empty input text"],
      source_text := text }
  else
    let customer := extractCustomerName text
    let orderItems := orderItemsOf text customer
    if orderItems.isEmpty then
      { rtype := RType.order,
        warnings := ["Could not identify any items in the order"],
        source_text := text }
    else
      { rtype := RType.order,
        order := some { customer := jsOrStrOpt customer "Walk-in",
                        items := orderItems },
        warnings := [], source_text := text }

/-! ## Price-sentence parser (`parsePriceSentence`) -/

def priceKeywords : List String := ["price", "cost", "rate", "rupees", "rs", "₹"]

/-- `/^(.+?)\s+(\d+(?:\.\d{1,2})?)$/` ( `.` is any char except a line
terminator). -/
def priceLineRE : Rgx :=
  let rdot := Rgx.cls (fun c => c ≠ '\n' && c ≠ '\r')
  rcat [Rgx.bos, Rgx.group 1 (Rgx.seq rdot (Rgx.star false rdot)), rwsP,
        Rgx.group 2 rnumFrac2, Rgx.eos]

/-- The cleaning chain of `parsePriceSentence`. -/
def priceCleanedOf (sentence : String) : String :=
  let c1 := reReplaceAll true (rcat [rstr "price", rwsP, rstr "of", rwsP]) "" sentence
  let c2 := reReplaceAll true (rcat [rstr "cost", rwsP, rstr "of", rwsP]) "" c1
  let c3 := reReplaceAll true (rcat [rstr "rate", rwsP, rstr "of", rwsP]) "" c2
  let c4 := reReplaceAll true
    (rcat [Rgx.wb, Rgx.group 1 (ralt [rstr "is", rstr "are",
      Rgx.seq (rstr "cost") (ropt (Rgx.ch 's')),
      Rgx.seq (rstr "price") (ropt (Rgx.ch 's'))]), Rgx.wb]) "" c3
  let c5 := reReplaceAll true
    (rcat [Rgx.wb, Rgx.group 1 (ralt [Rgx.seq (rstr "rupee") (ropt (Rgx.ch 's')),
      rstr "rs", rstr "₹"]), Rgx.wb]) "" c4
  c5.trimAscii

/-- `parsePriceSentence`. -/
def parsePriceSentence (sentence : String) : List PriceUpdate :=
  if sentence = "" || sentence.trimAscii = "" then []
  else if isCreditCommand sentence then []
  else if !(priceKeywords.any (fun keyword =>
      strIncludes sentence.lowerAscii keyword)) then []
  else
    let cleanedSentence := priceCleanedOf sentence
    let itemParts := reSplit true (rcat [rwsP, rstr "and", rwsP]) cleanedSentence
    itemParts.filterMap (fun part =>
      let trimmedPart := part.trimAscii
      if trimmedPart = "" then none
      else
        match reSearch false priceLineRE trimmedPart with
        | some (_, _, caps) =>
          match caps.lookup 1, caps.lookup 2 with
          | some m1, some m2 =>
            if m1 = "" || m2 = "" then none
            else
              let itemName := m1.trimAscii
              let price := parseDecimal m2
              if itemName ≠ "" && 0 ≤ price then
                some { item := titleCase itemName, price := price }
              else none
          | _, _ => none
        | none => none)

/-! ## Price-lookup enrichment (`parseSentenceWithPriceLookup`) -/

/-- Enrichment of one parsed item (the body of the `Promise.all` map):
if the parsed price is 0, consult the collaborator; a positive result
is adopted with provenance `auto-lookup`; `null`, a non-positive
result, or a thrown error (caught and logged) leave the price as is
with provenance `parsed`.  The total is recomputed in either case. -/
def enrichOne (lookup : PriceLookup) (item : ParsedEntry) : ParsedEntry :=
  let finalPrice := item.price
  let fp :=
    if finalPrice = 0 then
      match lookup (jsOrStr item.item "") with
      | Except.ok (some lookedUpPrice) =>
        if 0 < lookedUpPrice then (lookedUpPrice, "auto-lookup")
        else (finalPrice, "parsed")
      | Except.ok none => (finalPrice, "parsed")
      | Except.error _ => (finalPrice, "parsed")
    else (finalPrice, "parsed")
  let finalTotal := fp.1 * (jsOrQ item.qty 1)
  { item with price := fp.1, total := finalTotal, price_source := some fp.2 }

/-- `parseSentenceWithPriceLookup`: parse, enrich every entry, then
build the two warning classes. -/
def parseSentenceWithPriceLookup (lookup : PriceLookup) (text : String) :
    List ParsedEntry × List String :=
  let items := parseSentence text
  if items.isEmpty then ([], ["Could not parse any items from input"])
  else
    let enhancedEntries := items.map (enrichOne lookup)
    let itemsWithoutPrices := enhancedEntries.filter (fun e => e.price = 0)
    let w1 :=
      if itemsWithoutPrices.isEmpty then []
      else ["No price found for: " ++
        String.intercalate ", " (itemsWithoutPrices.map (fun e => e.item))]
    let autoLookedUpItems := enhancedEntries.filter
      (fun e => e.price_source = some "auto-lookup")
    let w2 :=
      if autoLookedUpItems.isEmpty then []
      else ["Auto-populated prices for: " ++
        String.intercalate ", " (autoLookedUpItems.map
          (fun e => e.item ++ " (₹" ++ decStr e.price ++ ")"))]
    (enhancedEntries, w1 ++ w2)

/-! ## Credit parsers -/

/-- One entry mapped into a multi-item credit-sale item
(`entry.item || ''` and friends). -/
def toCreditItem (e : ParsedEntry) : CreditItem :=
  { item := jsOrStr e.item "", qty := jsOrQ e.qty 1,
    unit := jsOrStr e.unit "", price := jsOrQ e.price 0,
    total := jsOrQ e.total 0 }

/-- `parseCreditSale`. -/
def parseCreditSale (lookup : PriceLookup) (text : String)
    (warnings : List String) (source_text : String) : ParsedResult :=
  let cleanText := (reReplaceFirst true creditSalesRE "" text).trimAscii
  let customer := extractCustomerName text
  let itemText :=
    match customer with
    | some c =>
      -- new RegExp with pattern \s+for\s+customer\s*$ and flag i — the
      -- escaping is a no-op: extracted names are letters and spaces
      (reReplaceFirst true
        (rcat [rwsP, rstr "for", rwsP, rstr c, rwsS, Rgx.eos]) "" cleanText).trimAscii
    | none => cleanText
  let pr := parseSentenceWithPriceLookup lookup itemText
  let warnings := warnings ++ pr.2
  match pr.1 with
    | [] =>
      { rtype := RType.transaction,
        warnings := warnings ++ ["Could not parse item details from credit sale"],
        source_text := source_text }
    | entry :: rest =>
      if rest.isEmpty then
        -- single-item credit sale
        { rtype := RType.credit,
          credit := some
            { ctype := CreditType.sale,
              customer := jsOrStrOpt customer "Walk-in",
              item := some (jsOrStr entry.item ""),
              qty := some (jsOrQ entry.qty 1),
              unit := some (jsOrStr entry.unit ""),
              price := some (jsOrQ entry.price 0),
              amount := some (jsOrQ entry.total 0) },
          warnings := warnings, source_text := source_text }
      else
        -- multi-item credit sale
        let items := (entry :: rest).map toCreditItem
        let totalAmount := items.foldl (fun sum item => sum + item.total) 0
        { rtype := RType.credit,
          credit := some
            { ctype := CreditType.sale,
              customer := jsOrStrOpt customer "Walk-in",
              items := some items, amount := some totalAmount },
          warnings := warnings, source_text := source_text }

/-- `[a-zA-Z][a-zA-Z\s]*?` (customer of the payment patterns). -/
def rcustomer : Rgx :=
  Rgx.seq ralpha
    (Rgx.star false (Rgx.cls (fun c => c.isAlpha || c.isWhitespace)))

/-- `/(?:rs\.?|rupees?|₹)\s*(\d+(?:\.\d+)?)\s+(?:by|from|for)\s+([a-zA-Z][a-zA-Z\s]*?)$/i`. -/
def paymentP1RE : Rgx :=
  rcat [rcurrency, rwsS, Rgx.group 1 rnumFrac, rwsP,
        ralt [rstr "by", rstr "from", rstr "for"], rwsP,
        Rgx.group 2 rcustomer, Rgx.eos]

/-- `/^(\d+(?:\.\d+)?)\s+(?:by|from|for)\s+([a-zA-Z][a-zA-Z\s]*?)$/i`. -/
def paymentP2RE : Rgx :=
  rcat [Rgx.bos, Rgx.group 1 rnumFrac, rwsP,
        ralt [rstr "by", rstr "from", rstr "for"], rwsP,
        Rgx.group 2 rcustomer, Rgx.eos]

/-- `/(?:rs\.?|rupees?|₹)?\s*(\d+(?:\.\d+)?)\.?$/i`. -/
def paymentP3RE : Rgx :=
  rcat [ropt rcurrency, rwsS, Rgx.group 1 rnumFrac, ropt (Rgx.ch '.'), Rgx.eos]

/-- Common tail of `parseCreditPayment` after amount and customer
extraction: amount validation, customer formatting, result assembly
(with the unconditional `forceReview`). -/
def creditPaymentResult (amount : ℚ) (customerName : String)
    (warnings : List String) (source_text : String) : ParsedResult :=
  if amount ≤ 0 then
    { rtype := RType.transaction,
      warnings := warnings ++ ["Credit payment amount must be greater than 0"],
      source_text := source_text }
  else
    let formattedCustomer := if customerName ≠ "" then titleCase customerName else ""
    { rtype := RType.credit,
      credit := some
        { ctype := CreditType.payment,
          customer := jsOrStr formattedCustomer "Walk-in",
          amount := some amount },
      warnings := warnings, source_text := source_text, forceReview := true }

/-- `parseCreditPayment`: the three extraction patterns in order.
(The captures always participate in a successful match, so the
`getD ""` defaults are never taken.) -/
def parseCreditPayment (text : String) (warnings : List String)
    (source_text : String) : ParsedResult :=
  let cleanText := (reReplaceFirst true creditPaidRE "" text).trimAscii
  match reSearch true paymentP1RE cleanText with
  | some (_, _, caps) =>
    creditPaymentResult (parseDecimal ((caps.lookup 1).getD ""))
      (((caps.lookup 2).getD "").trimAscii) warnings source_text
  | none =>
    match reSearch true paymentP2RE cleanText with
    | some (_, _, caps) =>
      creditPaymentResult (parseDecimal ((caps.lookup 1).getD ""))
        (((caps.lookup 2).getD "").trimAscii) warnings source_text
    | none =>
      match reSearch true paymentP3RE cleanText with
      | some (_, _, caps) =>
        creditPaymentResult (parseDecimal ((caps.lookup 1).getD ""))
          "" warnings source_text
      | none =>
        { rtype := RType.transaction,
          warnings := warnings ++ ["Could not parse credit payment amount"],
          source_text := source_text }

/-- `parseCreditCommand`.  (The `try/catch` and the trailing return are
unreachable here: both sub-parsers are total.) -/
def parseCreditCommand (lookup : PriceLookup) (text : String) : ParsedResult :=
  if text = "" || !isCreditCommand text then
    { rtype := RType.transaction, warnings := ["Not a credit command"],
      source_text := text }
  else
    match getCreditCommandType text with
    | none =>
      { rtype := RType.transaction,
        warnings := ["Could not determine credit command type"],
        source_text := text }
    | some CreditType.sale => parseCreditSale lookup text [] text
    | some CreditType.payment => parseCreditPayment text [] text

/-! ## Top-level parser (`parseEnhanced`) -/

/-- `parseEnhanced`: classify (credit first, then order, then price)
and dispatch; default to transaction parsing. -/
def parseEnhanced (lookup : PriceLookup) (text : String) : ParsedResult :=
  if text = "" || text.trimAscii = "" then
    { rtype := RType.transaction, warnings := ["Empty input text"],
      source_text := text }
  else if isCreditCommand text then parseCreditCommand lookup text
  else if isOrderCommand text then parseOrderCommand text
  else
    let priceUpdates := parsePriceSentence text
    if 0 < priceUpdates.length then
      { rtype := RType.price, priceUpdates := some priceUpdates,
        warnings := [], source_text := text }
    else
      match parseSentence text with
      | [] =>
        { rtype := RType.transaction,
          warnings := ["Could not parse any items from input"],
          source_text := text }
      | e :: _ =>
        { rtype := RType.transaction, entry := some e, warnings := [],
          source_text := text }

/-! ## Envelope predicates -/

/-- How many of the four payload fields of a `ParsedResult` are
populated. -/
def payloadCount (r : ParsedResult) : Nat :=
  (if r.entry.isSome then 1 else 0) + (if r.order.isSome then 1 else 0) +
  (if r.priceUpdates.isSome then 1 else 0) + (if r.credit.isSome then 1 else 0)

/-- At most one payload field is populated and a populated field agrees
with the envelope `type`. -/
def envelopeOk (r : ParsedResult) : Bool :=
  decide (payloadCount r ≤ 1) &&
  (r.entry.isNone || decide (r.rtype = RType.transaction)) &&
  (r.order.isNone || decide (r.rtype = RType.order)) &&
  (r.priceUpdates.isNone || decide (r.rtype = RType.price)) &&
  (r.credit.isNone || decide (r.rtype = RType.credit))

/-- Exactly one payload field is populated (the literal reading of the
spec sentence). -/
def exactlyOnePayload (r : ParsedResult) : Prop := payloadCount r = 1

instance (r : ParsedResult) : Decidable (exactlyOnePayload r) := by
  unfold exactlyOnePayload; infer_instance

/-! ## Helper lemmas -/

theorem jsOrStr_empty_default (s : String) : jsOrStr s "" = s := by
  unfold jsOrStr
  split
  · exact (‹s = ""›).symm
  · rfl

theorem extractQuantityGo_pos (text : String) :
    ∀ ps, 0 < extractQuantityGo text ps := by
  intro ps
  induction ps with
  | nil => norm_num [extractQuantityGo]
  | cons pc ps ih =>
    obtain ⟨p, ci⟩ := pc
    unfold extractQuantityGo
    split
    · split
      · dsimp only
        split
        · assumption
        · exact ih
      · exact ih
    · exact ih

theorem extractQuantity_pos (text : String) : 0 < extractQuantity text := by
  unfold extractQuantity
  split
  · norm_num
  · exact extractQuantityGo_pos text _

theorem extractQuantityGo_of_no_match (text : String) :
    ∀ ps, (ps.all fun pc => (reSearch pc.2 pc.1 text).isNone) = true →
      extractQuantityGo text ps = 1 := by
  intro ps
  induction ps with
  | nil => intro _; rfl
  | cons pc ps ih =>
    obtain ⟨p, ci⟩ := pc
    intro h
    simp only [List.all_cons, Bool.and_eq_true] at h
    have hs : reSearch ci p text = none := by
      cases hr : reSearch ci p text with
      | none => rfl
      | some v => rw [hr] at h; simp at h
    unfold extractQuantityGo
    rw [hs]
    exact ih (by simpa using h.2)

/-! ## Rounding to two decimals (for the total invariant) -/

/-- `round(x, 2)`: the nearest multiple of 1/100. -/
def round2 (x : ℚ) : ℚ := ((round (100 * x) : ℤ) : ℚ) / 100

/-! ## Concrete fixtures used by witnesses and counterexamples -/

/-- A collaborator whose catalog is empty (`lookupPrice` always
resolves to `null`). -/
def lkNone : PriceLookup := fun _ => Except.ok none

/-- A collaborator stub returning 45 for the item `Rice`. -/
def lkRice45 : PriceLookup :=
  fun s => if s = "Rice" then Except.ok (some 45) else Except.ok none

/-- A collaborator whose every call throws. -/
def lkThrow : PriceLookup := fun _ => Except.error ()

/-- The classifier-ordering input of the spec. -/
def c1Input : String := "Credit Sales 1 kg Rice for Rs 20 for Priya"

/-- The entry `parseSingleItem` produces for `"sold rice"`. -/
def eRice : ParsedEntry :=
  { item := "Rice", qty := 1, unit := "", price := 0, total := 0,
    type := TxType.cashIn, source_text := "sold rice" }

/-- The entry `parseSingleItem` produces for
`"sold 2 kg rice for rs 50"`. -/
def eRice50 : ParsedEntry :=
  { item := "Rice", qty := 2, unit := "kg", price := 50, total := 100,
    type := TxType.cashIn, source_text := "sold 2 kg rice for rs 50" }

/-- The credit payload `parseEnhanced` produces for
`"Credit Paid Rs 500 by Priya"`. -/
def paymentPriya : CreditPayload :=
  { ctype := CreditType.payment, customer := "Priya", amount := some 500 }

set_option maxRecDepth 1000000

attribute [local semireducible] Rat.add Rat.mul Rat.inv Rat.sub

/-! ## C9: unit normalization is idempotent on the known-unit table -/

/-- Claim C9: for every unit string u in the known-unit table,
`normalizeUnit (normalizeUnit u) = normalizeUnit u`. -/
theorem claim9_normalizeUnit_idempotent :
    ∀ u ∈ KNOWN_UNITS, normalizeUnit (normalizeUnit u) = normalizeUnit u := by
  decide

theorem claim9_witness :
    normalizeUnit (normalizeUnit "packets") = normalizeUnit "packets" :=
  claim9_normalizeUnit_idempotent "packets" (by decide)

/-! ## C8: extracted quantities are positive, defaulting to 1 -/

/-- Claim C8: `extractQuantity` always returns a strictly positive
number, and returns exactly 1 when none of its three patterns
matches. -/
theorem claim8_quantity_positive_default (text : String) :
    0 < extractQuantity text ∧
    ((quantityPatterns.all fun pc => (reSearch pc.2 pc.1 text).isNone) = true →
      extractQuantity text = 1) := by
  refine ⟨extractQuantity_pos text, fun h => ?_⟩
  unfold extractQuantity
  split
  · rfl
  · exact extractQuantityGo_of_no_match text _ h

theorem claim8_witness : extractQuantity "hello there" = 1 :=
  (claim8_quantity_positive_default "hello there").2 (by decide)

/-! ## C1: classifier ordering, credit before price -/

/-- Claim C1: the credit check runs strictly before the price check:
for `"Credit Sales 1 kg Rice for Rs 20 for Priya"` the top-level
`parseEnhanced` returns a result of type `credit` and never of type
`price`, whatever the price collaborator answers. -/
theorem claim1_classifier_credit_first (lookup : PriceLookup) :
    (parseEnhanced lookup c1Input).rtype = RType.credit ∧
    (parseEnhanced lookup c1Input).rtype ≠ RType.price := by
  have h : (parseEnhanced lookup c1Input).rtype = RType.credit := rfl
  refine ⟨h, ?_⟩
  rw [h]
  intro hc
  exact RType.noConfusion hc

/-! ## Structural lemmas about the parser envelopes -/

theorem creditPaymentResult_spec (a : ℚ) (c : String) (w : List String)
    (st : String) :
    (a ≤ 0 ∧ creditPaymentResult a c w st =
      { rtype := RType.transaction,
        warnings := w ++ ["Credit payment amount must be greater than 0"],
        source_text := st }) ∨
    (0 < a ∧ creditPaymentResult a c w st =
      { rtype := RType.credit,
        credit := some
          { ctype := CreditType.payment,
            customer := jsOrStr (if c ≠ "" then titleCase c else "") "Walk-in",
            amount := some a },
        warnings := w, source_text := st, forceReview := true }) := by
  unfold creditPaymentResult
  split
  · exact Or.inl ⟨‹_›, rfl⟩
  · exact Or.inr ⟨not_le.mp ‹_›, rfl⟩

theorem creditPaymentResult_source (a : ℚ) (c : String) (w : List String)
    (st : String) : (creditPaymentResult a c w st).source_text = st := by
  unfold creditPaymentResult
  split <;> rfl

theorem parseCreditPayment_source (text : String) (w : List String)
    (st : String) : (parseCreditPayment text w st).source_text = st := by
  unfold parseCreditPayment
  dsimp only
  split
  · exact creditPaymentResult_source ..
  · split
    · exact creditPaymentResult_source ..
    · split
      · exact creditPaymentResult_source ..
      · rfl

theorem parseCreditSale_source (lookup : PriceLookup) (text : String)
    (w : List String) (st : String) :
    (parseCreditSale lookup text w st).source_text = st := by
  unfold parseCreditSale
  dsimp only
  split
  · rfl
  · split <;> rfl

theorem parseCreditCommand_source (lookup : PriceLookup) (text : String) :
    (parseCreditCommand lookup text).source_text = text := by
  unfold parseCreditCommand
  split
  · rfl
  · split
    · rfl
    · exact parseCreditSale_source ..
    · exact parseCreditPayment_source ..

theorem parseOrderCommand_source (text : String) :
    (parseOrderCommand text).source_text = text := by
  unfold parseOrderCommand
  split
  · rfl
  · dsimp only
    split <;> rfl

/-! ## C10: the source text is preserved on every path -/

/-- Claim C10: on every path — empty input, credit, order, price,
transaction, and all soft-failure paths — the `ParsedResult` returned
by `parseEnhanced` carries the original input as `source_text`. -/
theorem claim10_source_text_preserved (lookup : PriceLookup) (text : String) :
    (parseEnhanced lookup text).source_text = text := by
  unfold parseEnhanced
  split
  · rfl
  · split
    · exact parseCreditCommand_source ..
    · split
      · exact parseOrderCommand_source ..
      · dsimp only
        split
        · rfl
        · split <;> rfl

/-! ## Envelope lemmas (for C2) -/

theorem envelopeOk_creditPaymentResult (a : ℚ) (c : String) (w : List String)
    (st : String) : envelopeOk (creditPaymentResult a c w st) = true := by
  rcases creditPaymentResult_spec a c w st with ⟨_, h⟩ | ⟨_, h⟩ <;> rw [h] <;> rfl

theorem envelopeOk_parseCreditPayment (text : String) (w : List String)
    (st : String) : envelopeOk (parseCreditPayment text w st) = true := by
  unfold parseCreditPayment
  dsimp only
  split
  · exact envelopeOk_creditPaymentResult ..
  · split
    · exact envelopeOk_creditPaymentResult ..
    · split
      · exact envelopeOk_creditPaymentResult ..
      · rfl

theorem envelopeOk_parseCreditSale (lookup : PriceLookup) (text : String)
    (w : List String) (st : String) :
    envelopeOk (parseCreditSale lookup text w st) = true := by
  unfold parseCreditSale
  dsimp only
  split
  · rfl
  · split <;> rfl

theorem envelopeOk_parseCreditCommand (lookup : PriceLookup) (text : String) :
    envelopeOk (parseCreditCommand lookup text) = true := by
  unfold parseCreditCommand
  split
  · rfl
  · split
    · rfl
    · exact envelopeOk_parseCreditSale ..
    · exact envelopeOk_parseCreditPayment ..

theorem envelopeOk_parseOrderCommand (text : String) :
    envelopeOk (parseOrderCommand text) = true := by
  unfold parseOrderCommand
  split
  · rfl
  · dsimp only
    split <;> rfl

/-! ## C2: the envelope invariant, corrected -/

/-- Counterexample to C2 as stated: for the empty input the top-level
parser returns a `transaction`-typed envelope with NO populated
payload, so "exactly one of the payload fields is populated" fails. -/
theorem claim2_counterexample : ¬ exactlyOnePayload (parseEnhanced lkNone "") := by
  decide

/-- Claim C2 (amended): for every input, AT MOST one of the payload
fields `entry`, `order`, `priceUpdates`, `credit` is populated, and a
populated field always corresponds to the envelope `type`
(soft-failure results populate none of them). -/
theorem claim2_envelope_amended (lookup : PriceLookup) (text : String) :
    envelopeOk (parseEnhanced lookup text) = true := by
  unfold parseEnhanced
  split
  · rfl
  · split
    · exact envelopeOk_parseCreditCommand ..
    · split
      · exact envelopeOk_parseOrderCommand ..
      · dsimp only
        split
        · rfl
        · split <;> rfl

/-! ## Credit-payload lemmas (for C4) -/

theorem parseOrderCommand_credit_none (text : String) :
    (parseOrderCommand text).credit = none := by
  unfold parseOrderCommand
  split
  · rfl
  · dsimp only
    split <;> rfl

theorem parseCreditSale_credit_sale (lookup : PriceLookup) (text : String)
    (w : List String) (st : String) (cp : CreditPayload) :
    (parseCreditSale lookup text w st).credit = some cp →
    cp.ctype = CreditType.sale := by
  unfold parseCreditSale
  dsimp only
  split
  · intro h
    exact Option.noConfusion h
  · split
    · intro h
      injection h with h'
      subst h'
      rfl
    · intro h
      injection h with h'
      subst h'
      rfl

theorem creditPaymentResult_forceReview (a : ℚ) (c : String)
    (w : List String) (st : String) (cp : CreditPayload) :
    (creditPaymentResult a c w st).credit = some cp →
    (creditPaymentResult a c w st).forceReview = true := by
  rcases creditPaymentResult_spec a c w st with ⟨_, h⟩ | ⟨_, h⟩ <;> rw [h]
  · intro hc
    exact Option.noConfusion hc
  · intro _
    rfl

theorem parseCreditPayment_forceReview (text : String) (w : List String)
    (st : String) (cp : CreditPayload) :
    (parseCreditPayment text w st).credit = some cp →
    (parseCreditPayment text w st).forceReview = true := by
  unfold parseCreditPayment
  dsimp only
  split
  · exact creditPaymentResult_forceReview _ _ _ _ cp
  · split
    · exact creditPaymentResult_forceReview _ _ _ _ cp
    · split
      · exact creditPaymentResult_forceReview _ _ _ _ cp
      · intro h
        exact Option.noConfusion h

theorem parseCreditCommand_payment_forceReview (lookup : PriceLookup)
    (text : String) (cp : CreditPayload) :
    (parseCreditCommand lookup text).credit = some cp →
    cp.ctype = CreditType.payment →
    (parseCreditCommand lookup text).forceReview = true := by
  unfold parseCreditCommand
  split
  · intro h _
    exact Option.noConfusion h
  · split
    · intro h _
      exact Option.noConfusion h
    · intro h h2
      have hs := parseCreditSale_credit_sale _ _ _ _ _ h
      exact CreditType.noConfusion (hs.symm.trans h2)
    · intro h _
      exact parseCreditPayment_forceReview _ _ _ _ h

/-! ## C4: credit payments always force review -/

/-- Claim C4: every `ParsedResult` of `parseEnhanced` whose credit
payload is a payment has `forceReview = true`. -/
theorem claim4_payment_forces_review (lookup : PriceLookup) (text : String)
    (cp : CreditPayload)
    (h1 : (parseEnhanced lookup text).credit = some cp)
    (h2 : cp.ctype = CreditType.payment) :
    (parseEnhanced lookup text).forceReview = true := by
  revert h1
  unfold parseEnhanced
  split
  · intro h1
    exact Option.noConfusion h1
  · split
    · intro h1
      exact parseCreditCommand_payment_forceReview _ _ _ h1 h2
    · split
      · intro h1
        rw [parseOrderCommand_credit_none] at h1
        exact Option.noConfusion h1
      · dsimp only
        split
        · intro h1
          exact Option.noConfusion h1
        · split <;> (intro h1; exact Option.noConfusion h1)

theorem claim4_witness :
    (parseEnhanced lkNone "Credit Paid Rs 500 by Priya").forceReview = true :=
  claim4_payment_forces_review lkNone "Credit Paid Rs 500 by Priya"
    paymentPriya (by decide) (by decide)

/-! ## C5: credit-payment amount validation -/

/-- Claim C5: `parseCreditPayment` either yields a credit-payment
payload with a strictly positive amount, or soft-fails with a
`transaction`-typed envelope, no credit payload and a non-empty
warnings list — never an exception. -/
theorem claim5_payment_amount_validation (text : String) (w : List String)
    (st : String) :
    (∃ cp am, (parseCreditPayment text w st).credit = some cp ∧
      cp.ctype = CreditType.payment ∧ cp.amount = some am ∧ 0 < am) ∨
    ((parseCreditPayment text w st).rtype = RType.transaction ∧
      (parseCreditPayment text w st).credit = none ∧
      (parseCreditPayment text w st).warnings ≠ []) := by
  have hres : ∀ (a : ℚ) (c : String),
      (∃ cp am, (creditPaymentResult a c w st).credit = some cp ∧
        cp.ctype = CreditType.payment ∧ cp.amount = some am ∧ 0 < am) ∨
      ((creditPaymentResult a c w st).rtype = RType.transaction ∧
        (creditPaymentResult a c w st).credit = none ∧
        (creditPaymentResult a c w st).warnings ≠ []) := by
    intro a c
    rcases creditPaymentResult_spec a c w st with ⟨_, h⟩ | ⟨hpos, h⟩ <;> rw [h]
    · exact Or.inr ⟨rfl, rfl, by simp⟩
    · exact Or.inl ⟨_, a, rfl, rfl, rfl, hpos⟩
  unfold parseCreditPayment
  dsimp only
  split
  · exact hres ..
  · split
    · exact hres ..
    · split
      · exact hres ..
      · exact Or.inr ⟨rfl, rfl, by simp⟩

/-! ## Lemmas for the total invariant (C3) -/

theorem abs_sub_round2 (y : ℚ) : |y - round2 y| ≤ 1 / 100 := by
  have h := abs_sub_round (100 * y)
  unfold round2
  rw [show y - ((round (100 * y) : ℤ) : ℚ) / 100 =
    (100 * y - ((round (100 * y) : ℤ) : ℚ)) / 100 by ring]
  rw [abs_div]
  rw [show |(100 : ℚ)| = 100 by norm_num]
  have h2 : |100 * y - ((round (100 * y) : ℤ) : ℚ)| / 100 ≤ (1 / 2) / 100 :=
    (div_le_div_iff_of_pos_right (by norm_num)).mpr h
  calc |100 * y - ((round (100 * y) : ℤ) : ℚ)| / 100
      ≤ (1 / 2) / 100 := h2
    _ ≤ 1 / 100 := by norm_num

theorem finishSingleItem_spec (cc : String) (ty : TxType) (q : ℚ)
    (item unit : String) (e : ParsedEntry)
    (h : finishSingleItem cc ty q item unit = some e) :
    e.total = e.price * e.qty ∧ e.qty = q := by
  unfold finishSingleItem at h
  dsimp only at h
  split at h
  · exact Option.noConfusion h
  · injection h with h'
    subst h'
    exact ⟨rfl, rfl⟩

theorem parseSingleItem_spec (chunk : String) (e : ParsedEntry)
    (h : parseSingleItem chunk = some e) :
    e.total = e.price * e.qty ∧ 0 < e.qty := by
  unfold parseSingleItem at h
  split at h
  · exact Option.noConfusion h
  · dsimp only at h
    split at h
    · obtain ⟨h1, h2⟩ := finishSingleItem_spec _ _ _ _ _ _ h
      exact ⟨h1, h2 ▸ extractQuantity_pos _⟩
    · split at h
      · obtain ⟨h1, h2⟩ := finishSingleItem_spec _ _ _ _ _ _ h
        exact ⟨h1, h2 ▸ extractQuantity_pos _⟩
      · split at h
        · obtain ⟨h1, h2⟩ := finishSingleItem_spec _ _ _ _ _ _ h
          exact ⟨h1, h2 ▸ extractQuantity_pos _⟩
        · exact Option.noConfusion h
      · exact Option.noConfusion h

theorem mem_parseSentence (raw : String) (e : ParsedEntry)
    (h : e ∈ parseSentence raw) :
    ∃ chunk, parseSingleItem chunk = some e := by
  unfold parseSentence at h
  split at h
  · exact absurd h (List.not_mem_nil e)
  · dsimp only at h
    split at h
    · split at h
      · rw [List.mem_singleton] at h
        subst h
        exact ⟨raw, ‹_›⟩
      · exact absurd h (List.not_mem_nil e)
    · split at h
      · split at h
        · rw [List.mem_singleton] at h
          subst h
          exact ⟨raw, ‹_›⟩
        · exact absurd h (List.not_mem_nil e)
      · rw [List.mem_filterMap] at h
        obtain ⟨c, _, hf⟩ := h
        split at hf
        · exact ⟨c, hf⟩
        · exact Option.noConfusion hf

theorem mem_enriched (lookup : PriceLookup) (text : String) (e : ParsedEntry)
    (h : e ∈ (parseSentenceWithPriceLookup lookup text).1) :
    ∃ e₀, e₀ ∈ parseSentence text ∧ e = enrichOne lookup e₀ := by
  unfold parseSentenceWithPriceLookup at h
  dsimp only at h
  split at h
  · exact absurd h (List.not_mem_nil e)
  · rw [List.mem_map] at h
    obtain ⟨e₀, h1, h2⟩ := h
    exact ⟨e₀, h1, h2.symm⟩

theorem enrichOne_total_eq (lookup : PriceLookup) (e : ParsedEntry)
    (hq : e.qty ≠ 0) :
    (enrichOne lookup e).total =
      (enrichOne lookup e).price * (enrichOne lookup e).qty := by
  unfold enrichOne
  dsimp only
  rw [show jsOrQ e.qty 1 = e.qty by unfold jsOrQ; rw [if_neg hq]]

/-! ## C3: the total invariant -/

/-- Claim C3: every entry produced by `parseSingleItem` (hence by
`parseSentence`) and every entry after price-lookup enrichment
satisfies `total = round(qty * price, 2)` within tolerance 0.01 (in
the exact rational model, `total` is `qty * price` itself, at distance
at most 1/200 from its rounding). -/
theorem claim3_total_invariant (chunk text : String) (lookup : PriceLookup)
    (e : ParsedEntry)
    (h : parseSingleItem chunk = some e ∨
      e ∈ (parseSentenceWithPriceLookup lookup text).1) :
    |e.total - round2 (e.qty * e.price)| ≤ 1 / 100 := by
  rcases h with h | h
  · obtain ⟨h1, _⟩ := parseSingleItem_spec _ _ h
    rw [h1, mul_comm e.price e.qty]
    exact abs_sub_round2 _
  · obtain ⟨e₀, hm, rfl⟩ := mem_enriched _ _ _ h
    obtain ⟨chunk₀, h₀⟩ := mem_parseSentence _ _ hm
    obtain ⟨_, hq⟩ := parseSingleItem_spec _ _ h₀
    rw [enrichOne_total_eq lookup e₀ (ne_of_gt hq),
      mul_comm (enrichOne lookup e₀).price (enrichOne lookup e₀).qty]
    exact abs_sub_round2 _

theorem claim3_witness :
    |eRice50.total - round2 (eRice50.qty * eRice50.price)| ≤ 1 / 100 :=
  claim3_total_invariant "sold 2 kg rice for rs 50" "" lkNone eRice50
    (Or.inl (by decide))

/-! ## Substring lemmas (for the warning-content claims) -/

theorem isPrefixOf_append (l₁ l₂ l₃ : List Char)
    (h : l₁.isPrefixOf l₂ = true) : l₁.isPrefixOf (l₂ ++ l₃) = true := by
  induction l₁ generalizing l₂ with
  | nil => simp [List.isPrefixOf]
  | cons a t ih =>
    cases l₂ with
    | nil => exact absurd h (by simp [List.isPrefixOf])
    | cons b t₂ =>
      simp only [List.cons_append, List.isPrefixOf, Bool.and_eq_true] at h ⊢
      exact ⟨h.1, ih _ h.2⟩

theorem strIncludes_of_isPrefixOf (s pat : String)
    (h : pat.data.isPrefixOf s.data = true) : strIncludes s pat = true := by
  unfold strIncludes
  cases hs : s.data with
  | nil => rw [hs] at h; exact h
  | cons c t =>
    rw [hs] at h
    unfold strIncludesGo
    rw [h]
    rfl

theorem containsSubstr_append_of_prefixed (pre x pat : String)
    (h : pat.data.isPrefixOf pre.data = true) :
    containsSubstr (pre ++ x) pat := by
  unfold containsSubstr
  apply strIncludes_of_isPrefixOf
  rw [String.data_append]
  exact isPrefixOf_append _ _ _ h

/-! ## Enrichment-step lemmas (for C6 and C7) -/

theorem enrichOne_auto (lookup : PriceLookup) (e : ParsedEntry) (p : ℚ)
    (hp : e.price = 0) (hl : lookup e.item = Except.ok (some p))
    (hpos : 0 < p) :
    enrichOne lookup e =
      { e with
          price := p, total := p * jsOrQ e.qty 1,
          price_source := some "auto-lookup" } := by
  unfold enrichOne
  dsimp only
  rw [jsOrStr_empty_default, hp, hl]
  simp [hpos]

theorem enrichOne_parsed (lookup : PriceLookup) (e : ParsedEntry)
    (hp : e.price ≠ 0) :
    enrichOne lookup e =
      { e with
          total := e.price * jsOrQ e.qty 1,
          price_source := some "parsed" } := by
  unfold enrichOne
  dsimp only
  rw [if_neg hp]

theorem enrichOne_err (lookup : PriceLookup) (e : ParsedEntry)
    (hp : e.price = 0) (hl : lookup e.item = Except.error ()) :
    enrichOne lookup e =
      { e with
          price := 0, total := 0 * jsOrQ e.qty 1,
          price_source := some "parsed" } := by
  unfold enrichOne
  dsimp only
  rw [jsOrStr_empty_default, hp, hl]
  simp

theorem pswpl_entries_eq (lookup : PriceLookup) (text : String) :
    (parseSentenceWithPriceLookup lookup text).1 =
      (parseSentence text).map (enrichOne lookup) := by
  unfold parseSentenceWithPriceLookup
  dsimp only
  split
  · next hemp =>
      rw [List.isEmpty_iff.mp hemp]
      rfl
  · rfl

theorem pswpl_warn_auto (lookup : PriceLookup) (text : String)
    (e : ParsedEntry) (he : e ∈ parseSentence text)
    (ha : (enrichOne lookup e).price_source = some "auto-lookup") :
    ∃ w ∈ (parseSentenceWithPriceLookup lookup text).2,
      containsSubstr w "Auto-populated" := by
  unfold parseSentenceWithPriceLookup
  dsimp only
  split
  · next hemp =>
      exact absurd (List.isEmpty_iff.mp hemp ▸ he) (List.not_mem_nil e)
  · have hmem : enrichOne lookup e ∈ List.filter
        (fun x => decide (x.price_source = some "auto-lookup"))
        (List.map (enrichOne lookup) (parseSentence text)) :=
      List.mem_filter.mpr ⟨List.mem_map_of_mem _ he, by rw [ha]; rfl⟩
    rw [if_neg (fun hemp =>
      (List.ne_nil_of_mem hmem) (List.isEmpty_iff.mp hemp))]
    refine ⟨_, List.mem_append_right _ (List.mem_singleton_self _), ?_⟩
    exact containsSubstr_append_of_prefixed _ _ _ (by decide)

theorem pswpl_warn_noprice (lookup : PriceLookup) (text : String)
    (e : ParsedEntry) (he : e ∈ parseSentence text)
    (h0 : (enrichOne lookup e).price = 0) :
    ∃ w ∈ (parseSentenceWithPriceLookup lookup text).2,
      containsSubstr w "No price found" := by
  unfold parseSentenceWithPriceLookup
  dsimp only
  split
  · next hemp =>
      exact absurd (List.isEmpty_iff.mp hemp ▸ he) (List.not_mem_nil e)
  · have hmem : enrichOne lookup e ∈ List.filter
        (fun x => decide (x.price = 0))
        (List.map (enrichOne lookup) (parseSentence text)) :=
      List.mem_filter.mpr ⟨List.mem_map_of_mem _ he, by rw [h0]; rfl⟩
    rw [if_neg (fun hemp =>
      (List.ne_nil_of_mem hmem) (List.isEmpty_iff.mp hemp))]
    refine ⟨_, List.mem_append_left _ (List.mem_singleton_self _), ?_⟩
    exact containsSubstr_append_of_prefixed _ _ _ (by decide)

/-! ## C6: price-lookup enrichment provenance -/

/-- Claim C6: an item parsed with price 0 for which the collaborator
returns a positive price p is enriched to price p, total `p * qty`,
provenance `auto-lookup`, with a warning containing "Auto-populated";
items whose price came from the text keep provenance `parsed` (and
their price). -/
theorem claim6_enrichment_provenance (lookup : PriceLookup) (text : String)
    (e : ParsedEntry) (p : ℚ) (he : e ∈ parseSentence text)
    (hp : e.price = 0) (hl : lookup e.item = Except.ok (some p))
    (hpos : 0 < p) :
    (enrichOne lookup e).price = p ∧
    (enrichOne lookup e).total = p * e.qty ∧
    (enrichOne lookup e).price_source = some "auto-lookup" ∧
    enrichOne lookup e ∈ (parseSentenceWithPriceLookup lookup text).1 ∧
    (∃ w ∈ (parseSentenceWithPriceLookup lookup text).2,
      containsSubstr w "Auto-populated") ∧
    (∀ e', e' ∈ parseSentence text → e'.price ≠ 0 →
      (enrichOne lookup e').price = e'.price ∧
      (enrichOne lookup e').price_source = some "parsed") := by
  have hq : e.qty ≠ 0 := by
    obtain ⟨c, hc⟩ := mem_parseSentence _ _ he
    exact ne_of_gt (parseSingleItem_spec _ _ hc).2
  have heq := enrichOne_auto lookup e p hp hl hpos
  refine ⟨by rw [heq], ?_, by rw [heq], ?_, ?_, ?_⟩
  · rw [heq]
    show p * jsOrQ e.qty 1 = p * e.qty
    rw [show jsOrQ e.qty 1 = e.qty by unfold jsOrQ; rw [if_neg hq]]
  · rw [pswpl_entries_eq]
    exact List.mem_map_of_mem _ he
  · exact pswpl_warn_auto lookup text e he (by rw [heq])
  · intro e' he' hp'
    rw [enrichOne_parsed lookup e' hp']
    exact ⟨rfl, rfl⟩

theorem claim6_witness :
    (enrichOne lkRice45 eRice).price = 45 ∧
    (enrichOne lkRice45 eRice).total = 45 * eRice.qty ∧
    (enrichOne lkRice45 eRice).price_source = some "auto-lookup" ∧
    enrichOne lkRice45 eRice ∈
      (parseSentenceWithPriceLookup lkRice45 "sold rice").1 ∧
    (∃ w ∈ (parseSentenceWithPriceLookup lkRice45 "sold rice").2,
      containsSubstr w "Auto-populated") ∧
    (∀ e', e' ∈ parseSentence "sold rice" → e'.price ≠ 0 →
      (enrichOne lkRice45 e').price = e'.price ∧
      (enrichOne lkRice45 e').price_source = some "parsed") :=
  claim6_enrichment_provenance lkRice45 "sold rice" eRice 45
    (by decide) (by decide) rfl (by decide)

/-! ## C7: a collaborator failure is isolated to its item -/

/-- Claim C7: when the collaborator throws for an item whose parsed
price is 0, that item keeps price 0 with provenance `parsed` and a
"No price found" warning is emitted, while the batch is still the
entry-wise enrichment of every parsed item — the failure never
escapes `parseSentenceWithPriceLookup`. -/
theorem claim7_lookup_failure_isolated (lookup : PriceLookup) (text : String)
    (e : ParsedEntry) (he : e ∈ parseSentence text)
    (hp : e.price = 0) (hl : lookup e.item = Except.error ()) :
    (enrichOne lookup e).price = 0 ∧
    (enrichOne lookup e).price_source = some "parsed" ∧
    (parseSentenceWithPriceLookup lookup text).1 =
      (parseSentence text).map (enrichOne lookup) ∧
    (∃ w ∈ (parseSentenceWithPriceLookup lookup text).2,
      containsSubstr w "No price found") := by
  have heq := enrichOne_err lookup e hp hl
  refine ⟨by rw [heq], by rw [heq], pswpl_entries_eq .., ?_⟩
  exact pswpl_warn_noprice lookup text e he (by rw [heq])

theorem claim7_witness :
    (enrichOne lkThrow eRice).price = 0 ∧
    (enrichOne lkThrow eRice).price_source = some "parsed" ∧
    (parseSentenceWithPriceLookup lkThrow "sold rice").1 =
      (parseSentence "sold rice").map (enrichOne lkThrow) ∧
    (∃ w ∈ (parseSentenceWithPriceLookup lkThrow "sold rice").2,
      containsSubstr w "No price found") :=
  claim7_lookup_failure_isolated lkThrow "sold rice" eRice
    (by decide) (by decide) rfl
